import Mathlib

/-!
Shallow embedding of the tool functions of `agent.py` from the
slide-gen-agent repository.

The Python tool functions call external Google APIs (Drive, Docs, Slides).
Each external call is modelled as a field of an environment record whose
value is either the payload the call would return (`CallResult.ok`) or the
message of the exception it would raise (`CallResult.exn`).  A Python
function that issues mutating `batchUpdate` calls additionally returns the
trace of the batches it issued, so that claims about which requests were
or were not sent can be stated.

JSON dictionaries are modelled structurally: a `.get` with a possibly
missing key becomes an `Option`, and Python truthiness tests (`if not x:`)
are translated explicitly (both `None` and the empty string / empty list
are falsy).
-/

/-- Outcome of one external API call: the payload, or the string of the
exception the call raises. -/
inductive CallResult (α : Type) where
  | ok : α → CallResult α
  | exn : String → CallResult α
deriving DecidableEq, Repr

/-- A single quote character, used in the message strings of `agent.py`. -/
def squote : String := String.singleton (Char.ofNat 39)

/-! ### Slides data model (responses of `presentations().get`) -/

/-- One page element of a layout or slide, as selected by the `fields`
masks in `create_slide`: its object id, and the placeholder information
reached by `element.get("shape", \x7b\x7d).get("placeholder", \x7b\x7d)`.
`placeholder = none` models a missing or empty (falsy) placeholder dict;
`placeholder = some t` models a non-empty placeholder dict whose
`"type"` entry is `t` (`t = none` when the dict has no `"type"` key). -/
structure PageElement where
  objectId : String
  placeholder : Option (Option String)
deriving DecidableEq, Repr

/-- The effective placeholder type of an element: the value of the chained
`element.get("shape", \x7b\x7d).get("placeholder", \x7b\x7d).get("type")`
lookup, where every missing level yields Python `None`. -/
def PageElement.phType (e : PageElement) : Option String :=
  match e.placeholder with
  | none => none
  | some t => t

/-- A layout of the presentation (from the `fields="layouts"` response). -/
structure Layout where
  objectId : String
  pageElements : List PageElement
deriving DecidableEq, Repr

/-- A slide of the presentation (from the second `presentations().get`). -/
structure Slide where
  objectId : String
  pageElements : List PageElement
deriving DecidableEq, Repr

/-- One request inside a `batchUpdate` call.  `create_slide` only ever
constructs these two request kinds; in particular no delete or rollback
request exists anywhere in `agent.py`. -/
inductive Request where
  | createSlide (objectId : String) (layoutId : String)
  | insertText (objectId : String) (text : String)
deriving DecidableEq, Repr

/-- Environment for one execution of `create_slide`: the outcomes of its
four external calls, in program order.  `createResp.ok slide_id` models a
successful first `batchUpdate` together with the extraction
`response["replies"][0]["createSlide"]["objectId"]`; any failure of that
call or extraction is `createResp.exn`. -/
structure SlidesEnv where
  layoutsResp : CallResult (List Layout)
  createResp : CallResult String
  slidesResp : CallResult (List Slide)
  insertResp : CallResult Unit
deriving DecidableEq, Repr

/-- One iteration of the element loop in step 2 of `create_slide`: given
the current `(has_title, has_body)` flags and one element, the updated
flags.  Mirrors the `if placeholder:` truthiness guard and the
`if / elif` on the type string. -/
def scanStep (acc : Bool × Bool) (e : PageElement) : Bool × Bool :=
  match e.placeholder with
  | none => acc
  | some placeholder_type =>
    if placeholder_type = some "TITLE" then (true, acc.2)
    else if placeholder_type = some "BODY" then (acc.1, true)
    else acc

/-- The final values of the `has_title` / `has_body` flags after the
`for element in layout.get("pageElements", [])` loop. -/
def scanElements (elems : List PageElement) : Bool × Bool :=
  elems.foldl scanStep (false, false)

/-- Step 2 of `create_slide`: the value of `suitable_layout_id` after the
layout loop (`none` when the loop finishes without a `break`). -/
def find_suitable_layout : List Layout → Option String
  | [] => none
  | layout :: rest =>
    let flags := scanElements layout.pageElements
    if flags.1 && flags.2 then some layout.objectId
    else find_suitable_layout rest

/-- Python truthiness of an optional string: `None` and `""` are falsy.
Used for `if not suitable_layout_id:` and `if not title_id or not body_id:`. -/
def falsyOptStr : Option String → Bool
  | none => true
  | some s => s.isEmpty

/-- The error message returned when no layout qualifies. -/
def noLayoutMsg : String :=
  "Error: Could not find a suitable layout with both a title and a body placeholder in the presentation template."

/-- The error message returned when the freshly created slide is not found
or has no (or an empty, hence falsy) `pageElements` list. -/
def noElementsMsg (slide_id : String) : String :=
  "Error: Could not find elements on the newly created slide " ++ squote ++ slide_id ++ squote ++ "."

/-- The error message returned when the title or body placeholder id on
the new slide is missing (or empty, hence falsy). -/
def noPlaceholderMsg (suitable_layout_id : String) : String :=
  "Error: Could not find title or body placeholders on the new slide using layout " ++ squote ++ suitable_layout_id ++ squote ++ "."

/-- The success message of `create_slide`: in Python,
`f"Slide \x7btitle\x7d created successfully."` with the title wrapped in
single quotes. -/
def successMsg (title : String) : String :=
  "Slide " ++ squote ++ title ++ squote ++ " created successfully."

/-- The catch-all message of `create_slide`:
`f"An unexpected error occurred: \x7be\x7d"`. -/
def unexpectedMsg (e : String) : String :=
  "An unexpected error occurred: " ++ e

/-- The `title_id` lookup of step 4 of `create_slide`: the object id of
the first element of the new slide whose placeholder type is `"TITLE"`
(`next((e["objectId"] for e in new_slide_elements if ...), None)`). -/
def titleIdOf (elems : List PageElement) : Option String :=
  (elems.find? (fun e => e.phType = some "TITLE")).map PageElement.objectId

/-- The `body_id` lookup of step 4 of `create_slide`, same shape with
placeholder type `"BODY"`. -/
def bodyIdOf (elems : List PageElement) : Option String :=
  (elems.find? (fun e => e.phType = some "BODY")).map PageElement.objectId

/-- `create_slide` from `agent.py`, with the generated UUID supplied as
the argument `new_uuid` and the external calls supplied by `env`.
Returns the Python return string together with the list of `batchUpdate`
calls issued (each a list of requests).  A `batchUpdate` whose outcome is
`exn` was still issued before raising, so it appears in the trace. -/
def create_slide (title body new_uuid : String) (env : SlidesEnv) :
    String × List (List Request) :=
  match env.layoutsResp with
  | .exn e => (unexpectedMsg e, [])
  | .ok layouts =>
    let suitable_layout_id := find_suitable_layout layouts
    if falsyOptStr suitable_layout_id then (noLayoutMsg, [])
    else
      match suitable_layout_id with
      | none => (noLayoutMsg, [])
      | some layout_id =>
        let create_batch :=
          [Request.createSlide ("new_slide_" ++ new_uuid) layout_id]
        match env.createResp with
        | .exn e => (unexpectedMsg e, [create_batch])
        | .ok slide_id =>
          match env.slidesResp with
          | .exn e => (unexpectedMsg e, [create_batch])
          | .ok slides =>
            let new_slide_elements :=
              (slides.find? (fun s => s.objectId = slide_id)).map Slide.pageElements
            match new_slide_elements with
            | none => (noElementsMsg slide_id, [create_batch])
            | some [] => (noElementsMsg slide_id, [create_batch])
            | some elems =>
              let title_id := titleIdOf elems
              let body_id := bodyIdOf elems
              if falsyOptStr title_id || falsyOptStr body_id then
                (noPlaceholderMsg layout_id, [create_batch])
              else
                match title_id, body_id with
                | some t, some b =>
                  let insert_batch :=
                    [Request.insertText t title, Request.insertText b body]
                  match env.insertResp with
                  | .exn e => (unexpectedMsg e, [create_batch, insert_batch])
                  | .ok _ => (successMsg title, [create_batch, insert_batch])
                | _, _ => (noPlaceholderMsg layout_id, [create_batch])

/-! ### Drive data model (`create_presentation_from_template`) -/

/-- `rest` of the haystack after removing `pat` as a prefix, when `pat`
is a prefix of it; `none` otherwise. -/
def dropLit : List Char → List Char → Option (List Char)
  | [], rest => some rest
  | _ :: _, [] => none
  | p :: ps, c :: cs => if c = p then dropLit ps cs else none

/-- Python substring membership `needle in haystack`, on character lists. -/
def hasSub (needle : List Char) : List Char → Bool
  | [] => (dropLit needle []).isSome
  | c :: cs => (dropLit needle (c :: cs)).isSome || hasSub needle cs

/-- The fixed template presentation id configured in `agent.py`. -/
def TEMPLATE_ID : String := "1CHFtSGAvm-XdHX3RSDjM7RabFG5MDeq9kKgfcsEYyRI"

/-- The file resource returned by `drive_service.files().copy(...)`; only
its `"id"` entry is read (`copied_file.get("id")`, possibly `None`). -/
structure DriveFile where
  id : Option String
deriving DecidableEq, Repr

/-- Environment for `create_presentation_from_template`: the outcome of
the single `files().copy(...).execute()` call. -/
structure DriveEnv where
  copyResp : CallResult DriveFile
deriving DecidableEq, Repr

/-- Python f-string rendering of an optional string: `None` prints as the
four characters `None`. -/
def pyShowOptStr : Option String → String
  | none => "None"
  | some s => s

/-- `create_presentation_from_template` from `agent.py`.  The `title`
argument only feeds the body of the copy request, which the environment
abstracts, so it does not influence the returned string. -/
def create_presentation_from_template (_title : String) (env : DriveEnv) : String :=
  if hasSub "YOUR_PRESENTATION_ID_HERE".toList TEMPLATE_ID.toList then
    "Error: The TEMPLATE_ID has not been configured in agent.py."
  else
    match env.copyResp with
    | .ok copied_file =>
      let pid := pyShowOptStr copied_file.id
      "Presentation created. ID: " ++ pid ++
        ". URL: https://docs.google.com/presentation/d/" ++ pid ++ "/"
    | .exn e => "Error: " ++ e

/-! ### Docs data model (`read_google_doc`) -/

/-- A character allowed in the capture group of the document id regex
`[a-zA-Z0-9-_]`. -/
def docIdChar (c : Char) : Bool :=
  c.isAlpha || c.isDigit || c = '-' || c = '_'

/-- The literal part of the document id regex. -/
def docPattern : List Char := "/document/d/".toList

/-- Model of `re.search(r"/document/d/([a-zA-Z0-9-_]+)", doc_url)`: scan
positions left to right; at the first position where the literal prefix
matches and is followed by at least one id character, return the maximal
(greedy) run of id characters captured by the group. -/
def searchDocId : List Char → Option (List Char)
  | [] => none
  | c :: cs =>
    match dropLit docPattern (c :: cs) with
    | some rest =>
      match rest.takeWhile docIdChar with
      | [] => searchDocId cs
      | d :: ds => some (d :: ds)
    | none => searchDocId cs

/-- A `textRun` object inside a paragraph element; its `"content"` entry
may be absent (`elem.get("textRun", \x7b\x7d).get("content", "")`). -/
structure TextRun where
  content : Option String
deriving DecidableEq, Repr

/-- One element of a paragraph; `textRun = none` models an element with
no `"textRun"` key (e.g. a non-text element). -/
structure ParagraphElement where
  textRun : Option TextRun
deriving DecidableEq, Repr

/-- A paragraph: the list under `value.get("paragraph").get("elements")`. -/
structure Paragraph where
  elements : List ParagraphElement
deriving DecidableEq, Repr

/-- One structural element of the document body; `paragraph = none`
models an element without a `"paragraph"` key (table, section break, ...),
filtered out by `if "paragraph" in value`. -/
structure StructuralElement where
  paragraph : Option Paragraph
deriving DecidableEq, Repr

/-- The document as read by `read_google_doc`:
`doc.get("body").get("content")`. -/
structure Document where
  content : List StructuralElement
deriving DecidableEq, Repr

/-- The string a paragraph element contributes:
`elem.get("textRun", \x7b\x7d).get("content", "")`. -/
def ParagraphElement.runText (e : ParagraphElement) : String :=
  match e.textRun with
  | none => ""
  | some tr => tr.content.getD ""

/-- The `"".join(...)` comprehension of `read_google_doc`: the contents
of all paragraph elements of all paragraph-bearing structural elements,
in order, concatenated without separators. -/
def docText (content : List StructuralElement) : String :=
  String.join
    ((content.filterMap StructuralElement.paragraph).flatMap
      (fun p => p.elements.map ParagraphElement.runText))

/-- Environment for `read_google_doc`: the outcome of
`documents().get(documentId=...).execute()` (with the subsequent
`body` / `content` lookups folded into the payload). -/
structure DocsEnv where
  getResp : CallResult Document
deriving DecidableEq, Repr

/-- `read_google_doc` from `agent.py`.  The second component of the
result records whether the `documents().get` network call was executed. -/
def read_google_doc (doc_url : String) (env : DocsEnv) : String × Bool :=
  match searchDocId doc_url.toList with
  | none => ("Error: Invalid Google Doc URL.", false)
  | some _ =>
    match env.getResp with
    | .exn e => ("Error: " ++ e, true)
    | .ok doc => (docText doc.content, true)

/-! ### Public URL fetcher (`read_content_from_public_url`) -/

/-- Environment for `read_content_from_public_url`: `ok text` models a
fetch whose `raise_for_status()` passes and whose body is `text`;
`exn e` models a raised `requests.exceptions.RequestException` (the
documented base class of every exception the `requests` library itself
raises) from `requests.get` or `raise_for_status`. -/
structure HttpEnv where
  getResp : CallResult String
deriving DecidableEq, Repr

/-- `read_content_from_public_url` from `agent.py`. -/
def read_content_from_public_url (_url : String) (env : HttpEnv) : String :=
  match env.getResp with
  | .ok text => text
  | .exn e => "Error fetching content from URL: " ++ e

/-! ### Definitions transcribed from the specification text

These follow the wording of the specification (not the code) and are
compared with the code-derived definitions by the refinement theorems. -/

/-- Spec wording: a layout qualifies when it "contains at least one
title-role and one body-role placeholder". -/
def layoutQualifies (l : Layout) : Bool :=
  (l.pageElements.any fun e => e.phType = some "TITLE") &&
  (l.pageElements.any fun e => e.phType = some "BODY")

/-- Spec wording for the document reader, paragraph level: concatenate the
content of every text-run element in order; an element that is not a text
run contributes nothing. -/
def specParaText : List ParagraphElement → String
  | [] => ""
  | ⟨none⟩ :: es => specParaText es
  | ⟨some tr⟩ :: es => tr.content.getD "" ++ specParaText es

/-- Spec wording for the document reader, body level: concatenate, in
document order, the paragraph texts of the paragraph-bearing structural
elements; a non-paragraph element contributes nothing; no separator is
inserted anywhere. -/
def specDocText : List StructuralElement → String
  | [] => ""
  | ⟨none⟩ :: vs => specDocText vs
  | ⟨some p⟩ :: vs => specParaText p.elements ++ specDocText vs

/-! ### Concrete fixtures used by witnesses and examples -/

/-- A title-role placeholder element. -/
def elemT : PageElement := ⟨"idT", some (some "TITLE")⟩

/-- A body-role placeholder element. -/
def elemB : PageElement := ⟨"idB", some (some "BODY")⟩

/-- A layout with both a title and a body placeholder. -/
def layBoth : Layout := ⟨"layBoth", [elemT, elemB]⟩

/-- A layout with only a title placeholder. -/
def layTitleOnly : Layout := ⟨"layTitleOnly", [elemT]⟩

/-- The freshly created slide as returned by the second
`presentations().get`, with both placeholders present. -/
def newSlide : Slide := ⟨"sNew", [⟨"phT", some (some "TITLE")⟩, ⟨"phB", some (some "BODY")⟩]⟩

/-- The freshly created slide with the body placeholder missing. -/
def slideTitleOnly : Slide := ⟨"sNew", [⟨"phT", some (some "TITLE")⟩]⟩

/-- Environment of a fully successful `create_slide` run. -/
def envSuccess : SlidesEnv := ⟨.ok [layBoth], .ok "sNew", .ok [newSlide], .ok ()⟩

/-- Environment in which the second layout is the first qualifying one. -/
def envSecondLayout : SlidesEnv := ⟨.ok [layTitleOnly, layBoth], .ok "sNew", .ok [newSlide], .ok ()⟩

/-- Environment in which no layout has both placeholder roles. -/
def envNoLayout : SlidesEnv := ⟨.ok [layTitleOnly], .ok "sNew", .ok [newSlide], .ok ()⟩

/-- Environment in which the slide is created but the body placeholder is
then missing on the new slide. -/
def envMissingBody : SlidesEnv := ⟨.ok [layBoth], .ok "sNew", .ok [slideTitleOnly], .ok ()⟩

/-- Environment in which the slide is created but the new slide cannot be
found afterwards. -/
def envSlidesEmpty : SlidesEnv := ⟨.ok [layBoth], .ok "sNew", .ok [], .ok ()⟩

/-- A document URL matching the id pattern. -/
def urlGood : String := "https://docs.google.com/document/d/abc-123_X/edit"

/-- A URL in which the document id pattern does not match. -/
def urlBad : String := "https://example.com/spreadsheets/d/abc"

/-- A paragraph element carrying the text run `Hello `. -/
def runHello : ParagraphElement := ⟨some ⟨some "Hello "⟩⟩

/-- A paragraph element carrying the text run `world`. -/
def runWorld : ParagraphElement := ⟨some ⟨some "world"⟩⟩

/-- A paragraph element with no text run (e.g. an inline object). -/
def elemNoRun : ParagraphElement := ⟨none⟩

/-- A document with three paragraphs of which the first and third contain
a text run and the second contains none. -/
def docThree : Document :=
  ⟨[⟨some ⟨[runHello]⟩⟩, ⟨some ⟨[elemNoRun]⟩⟩, ⟨some ⟨[runWorld]⟩⟩]⟩

/-! ### Helper lemmas on strings -/

lemma str_data_append (a b : String) : (a ++ b).data = a.data ++ b.data := rfl

lemma str_foldl_append (l : List String) (a : String) :
    l.foldl (· ++ ·) a = a ++ l.foldl (· ++ ·) "" := by
  induction l generalizing a with
  | nil => simp [String.append_empty]
  | cons s rest ih =>
    simp only [List.foldl_cons]
    rw [ih (a ++ s), ih (("" : String) ++ s), String.empty_append, String.append_assoc]

lemma str_join_cons (s : String) (l : List String) :
    String.join (s :: l) = s ++ String.join l := by
  simp only [String.join, List.foldl_cons, String.empty_append]
  rw [str_foldl_append]

/-- First character of the catch-all message of `create_slide`. -/
lemma head_unexpectedMsg (e : String) :
    (unexpectedMsg e).data.head? = some (Char.ofNat 65) := rfl

/-- First character of the success message of `create_slide`. -/
lemma head_successMsg (t : String) :
    (successMsg t).data.head? = some (Char.ofNat 83) := rfl

lemma head_noLayoutMsg : noLayoutMsg.data.head? = some (Char.ofNat 69) := rfl

lemma head_noElementsMsg (s : String) :
    (noElementsMsg s).data.head? = some (Char.ofNat 69) := rfl

lemma head_noPlaceholderMsg (s : String) :
    (noPlaceholderMsg s).data.head? = some (Char.ofNat 69) := rfl

lemma successMsg_ne_unexpectedMsg (t e : String) : successMsg t ≠ unexpectedMsg e := by
  intro h
  have h2 : (successMsg t).data.head? = (unexpectedMsg e).data.head? := by rw [h]
  rw [head_successMsg, head_unexpectedMsg] at h2
  exact absurd h2 (by decide)

lemma successMsg_ne_noLayoutMsg (t : String) : successMsg t ≠ noLayoutMsg := by
  intro h
  have h2 : (successMsg t).data.head? = noLayoutMsg.data.head? := by rw [h]
  rw [head_successMsg, head_noLayoutMsg] at h2
  exact absurd h2 (by decide)

lemma successMsg_ne_noElementsMsg (t s : String) : successMsg t ≠ noElementsMsg s := by
  intro h
  have h2 : (successMsg t).data.head? = (noElementsMsg s).data.head? := by rw [h]
  rw [head_successMsg, head_noElementsMsg] at h2
  exact absurd h2 (by decide)

lemma successMsg_ne_noPlaceholderMsg (t s : String) : successMsg t ≠ noPlaceholderMsg s := by
  intro h
  have h2 : (successMsg t).data.head? = (noPlaceholderMsg s).data.head? := by rw [h]
  rw [head_successMsg, head_noPlaceholderMsg] at h2
  exact absurd h2 (by decide)

/-! ### Refinement lemmas: loop code vs. declarative descriptions -/

lemma scanStep_eq (acc : Bool × Bool) (e : PageElement) :
    scanStep acc e =
      (acc.1 || decide (e.phType = some "TITLE"),
       acc.2 || decide (e.phType = some "BODY")) := by
  rcases acc with ⟨a, b⟩
  rcases hp : e.placeholder with _ | pt
  · simp [scanStep, hp, PageElement.phType]
  · simp only [scanStep, hp, PageElement.phType]
    by_cases ht : pt = some "TITLE"
    · simp [ht]
    · by_cases hb : pt = some "BODY"
      · simp [ht, hb]
      · simp [ht, hb]

lemma scanStep_foldl (elems : List PageElement) (a b : Bool) :
    elems.foldl scanStep (a, b) =
      (a || elems.any (fun e => e.phType = some "TITLE"),
       b || elems.any (fun e => e.phType = some "BODY")) := by
  induction elems generalizing a b with
  | nil => simp
  | cons e rest ih =>
    rw [List.foldl_cons, scanStep_eq, ih]
    simp [List.any_cons, Bool.or_assoc]

/-- The element loop computes exactly the two existence checks of the
spec wording. -/
lemma scanElements_eq (elems : List PageElement) :
    scanElements elems =
      (elems.any (fun e => e.phType = some "TITLE"),
       elems.any (fun e => e.phType = some "BODY")) := by
  rw [scanElements, scanStep_foldl]
  simp

/-- The layout loop of `create_slide` returns the object id of the first
layout satisfying the spec criterion, and `none` when there is none. -/
lemma find_suitable_layout_eq (layouts : List Layout) :
    find_suitable_layout layouts =
      (layouts.find? layoutQualifies).map Layout.objectId := by
  induction layouts with
  | nil => rfl
  | cons l rest ih =>
    have hcond : ((scanElements l.pageElements).1 && (scanElements l.pageElements).2)
        = layoutQualifies l := by
      rw [scanElements_eq, layoutQualifies]
    by_cases hq : layoutQualifies l = true
    · simp only [find_suitable_layout, hcond, hq, if_true]
      rw [List.find?_cons_of_pos _ hq]
      rfl
    · have hq2 : layoutQualifies l = false := by
        cases h : layoutQualifies l
        · rfl
        · exact absurd h hq
      simp only [find_suitable_layout, hcond, hq2, Bool.false_eq_true, if_false]
      rw [List.find?_cons_of_neg _ hq, ih]

lemma str_join_append (l1 l2 : List String) :
    String.join (l1 ++ l2) = String.join l1 ++ String.join l2 := by
  induction l1 with
  | nil => simp [String.join, String.empty_append]
  | cons s rest ih =>
    rw [List.cons_append, str_join_cons, str_join_cons, ih, String.append_assoc]

lemma specParaText_eq (elems : List ParagraphElement) :
    String.join (elems.map ParagraphElement.runText) = specParaText elems := by
  induction elems with
  | nil => rfl
  | cons e es ih =>
    rw [List.map_cons, str_join_cons, ih]
    rcases e with ⟨_ | tr⟩
    · rw [specParaText]
      exact String.empty_append _
    · rfl

/-- The `join` comprehension of `read_google_doc` equals the recursive
concatenation transcribed from the spec wording. -/
lemma docText_eq_specDocText (content : List StructuralElement) :
    docText content = specDocText content := by
  induction content with
  | nil => rfl
  | cons v vs ih =>
    rcases v with ⟨_ | p⟩
    · rw [specDocText, ← ih]
      rfl
    · rw [specDocText, ← ih, ← specParaText_eq]
      show String.join _ = _
      rw [docText]
      simp only [List.filterMap_cons]
      rw [List.flatMap_cons, str_join_append]

/-! ### Branch equations for `create_slide` -/

lemma cs_layouts_exn (t b u e : String) (cr : CallResult String)
    (sr : CallResult (List Slide)) (ir : CallResult Unit) :
    create_slide t b u ⟨.exn e, cr, sr, ir⟩ = (unexpectedMsg e, []) := rfl

lemma cs_noLayout (t b u : String) (layouts : List Layout) (cr : CallResult String)
    (sr : CallResult (List Slide)) (ir : CallResult Unit)
    (h : falsyOptStr (find_suitable_layout layouts) = true) :
    create_slide t b u ⟨.ok layouts, cr, sr, ir⟩ = (noLayoutMsg, []) := by
  simp [create_slide, h]

lemma cs_create_exn (t b u e : String) (layouts : List Layout) (lid : String)
    (sr : CallResult (List Slide)) (ir : CallResult Unit)
    (h1 : find_suitable_layout layouts = some lid) (h2 : lid.isEmpty = false) :
    create_slide t b u ⟨.ok layouts, .exn e, sr, ir⟩ =
      (unexpectedMsg e, [[Request.createSlide ("new_slide_" ++ u) lid]]) := by
  simp [create_slide, h1, falsyOptStr, h2]

lemma cs_slides_exn (t b u e : String) (layouts : List Layout) (lid sid : String)
    (ir : CallResult Unit)
    (h1 : find_suitable_layout layouts = some lid) (h2 : lid.isEmpty = false) :
    create_slide t b u ⟨.ok layouts, .ok sid, .exn e, ir⟩ =
      (unexpectedMsg e, [[Request.createSlide ("new_slide_" ++ u) lid]]) := by
  simp [create_slide, h1, falsyOptStr, h2]

lemma cs_noElements_none (t b u : String) (layouts : List Layout) (lid sid : String)
    (slides : List Slide) (ir : CallResult Unit)
    (h1 : find_suitable_layout layouts = some lid) (h2 : lid.isEmpty = false)
    (h3 : slides.find? (fun s => s.objectId = sid) = none) :
    create_slide t b u ⟨.ok layouts, .ok sid, .ok slides, ir⟩ =
      (noElementsMsg sid, [[Request.createSlide ("new_slide_" ++ u) lid]]) := by
  simp [create_slide, h1, falsyOptStr, h2, h3]

lemma cs_noElements_nil (t b u : String) (layouts : List Layout) (lid sid : String)
    (slides : List Slide) (sl : Slide) (ir : CallResult Unit)
    (h1 : find_suitable_layout layouts = some lid) (h2 : lid.isEmpty = false)
    (h3 : slides.find? (fun s => s.objectId = sid) = some sl)
    (h4 : sl.pageElements = []) :
    create_slide t b u ⟨.ok layouts, .ok sid, .ok slides, ir⟩ =
      (noElementsMsg sid, [[Request.createSlide ("new_slide_" ++ u) lid]]) := by
  simp [create_slide, h1, falsyOptStr, h2, h3, h4]

lemma cs_noPlaceholder (t b u : String) (layouts : List Layout) (lid sid : String)
    (slides : List Slide) (sl : Slide) (el : PageElement) (els : List PageElement)
    (ir : CallResult Unit)
    (h1 : find_suitable_layout layouts = some lid) (h2 : lid.isEmpty = false)
    (h3 : slides.find? (fun s => s.objectId = sid) = some sl)
    (h4 : sl.pageElements = el :: els)
    (h5 : (falsyOptStr (titleIdOf (el :: els)) || falsyOptStr (bodyIdOf (el :: els))) = true) :
    create_slide t b u ⟨.ok layouts, .ok sid, .ok slides, ir⟩ =
      (noPlaceholderMsg lid, [[Request.createSlide ("new_slide_" ++ u) lid]]) := by
  rcases hti : titleIdOf (el :: els) with _ | tid
  · simp [create_slide, h1, falsyOptStr, h2, h3, h4, hti]
  · rcases hbi : bodyIdOf (el :: els) with _ | bid
    · simp [create_slide, h1, falsyOptStr, h2, h3, h4, hti, hbi]
    · have h5x : (tid.isEmpty || bid.isEmpty) = true := by
        simpa [falsyOptStr, hti, hbi] using h5
      simp [create_slide, h1, falsyOptStr, h2, h3, h4, hti, hbi, h5x]

lemma cs_insert_exn (t b u e : String) (layouts : List Layout) (lid sid : String)
    (slides : List Slide) (sl : Slide) (el : PageElement) (els : List PageElement)
    (tid bid : String)
    (h1 : find_suitable_layout layouts = some lid) (h2 : lid.isEmpty = false)
    (h3 : slides.find? (fun s => s.objectId = sid) = some sl)
    (h4 : sl.pageElements = el :: els)
    (h5 : titleIdOf (el :: els) = some tid) (h6 : bodyIdOf (el :: els) = some bid)
    (h7 : tid.isEmpty = false) (h8 : bid.isEmpty = false) :
    create_slide t b u ⟨.ok layouts, .ok sid, .ok slides, .exn e⟩ =
      (unexpectedMsg e,
       [[Request.createSlide ("new_slide_" ++ u) lid],
        [Request.insertText tid t, Request.insertText bid b]]) := by
  simp [create_slide, h1, falsyOptStr, h2, h3, h4, h5, h6, h7, h8]

lemma cs_success (t b u : String) (layouts : List Layout) (lid sid : String)
    (slides : List Slide) (sl : Slide) (el : PageElement) (els : List PageElement)
    (tid bid : String)
    (h1 : find_suitable_layout layouts = some lid) (h2 : lid.isEmpty = false)
    (h3 : slides.find? (fun s => s.objectId = sid) = some sl)
    (h4 : sl.pageElements = el :: els)
    (h5 : titleIdOf (el :: els) = some tid) (h6 : bodyIdOf (el :: els) = some bid)
    (h7 : tid.isEmpty = false) (h8 : bid.isEmpty = false) :
    create_slide t b u ⟨.ok layouts, .ok sid, .ok slides, .ok ()⟩ =
      (successMsg t,
       [[Request.createSlide ("new_slide_" ++ u) lid],
        [Request.insertText tid t, Request.insertText bid b]]) := by
  simp [create_slide, h1, falsyOptStr, h2, h3, h4, h5, h6, h7, h8]

/-! ### Inversion helpers for `create_slide` -/

lemma find_not_falsy (layouts : List Layout)
    (hf : falsyOptStr (find_suitable_layout layouts) = false) :
    ∃ lid, find_suitable_layout layouts = some lid ∧ lid.isEmpty = false := by
  rcases hfd : find_suitable_layout layouts with _ | lid
  · rw [hfd] at hf
    exact absurd hf (by simp [falsyOptStr])
  · refine ⟨lid, rfl, ?_⟩
    rw [hfd] at hf
    simpa [falsyOptStr] using hf

lemma ids_not_falsy (elems : List PageElement)
    (h : (falsyOptStr (titleIdOf elems) || falsyOptStr (bodyIdOf elems)) = false) :
    ∃ tid bid, titleIdOf elems = some tid ∧ bodyIdOf elems = some bid ∧
      tid.isEmpty = false ∧ bid.isEmpty = false := by
  rw [Bool.or_eq_false_iff] at h
  obtain ⟨hT, hB⟩ := h
  rcases hti : titleIdOf elems with _ | tid
  · rw [hti] at hT
    exact absurd hT (by simp [falsyOptStr])
  · rcases hbi : bodyIdOf elems with _ | bid
    · rw [hbi] at hB
      exact absurd hB (by simp [falsyOptStr])
    · rw [hti] at hT
      rw [hbi] at hB
      exact ⟨tid, bid, rfl, rfl, by simpa [falsyOptStr] using hT,
        by simpa [falsyOptStr] using hB⟩

/-- Full inversion of a successful `create_slide` run: the success string
is produced only on the one execution path where every call succeeded,
both placeholder ids were located (and are truthy), and the insert batch
carrying both texts was issued. -/
lemma cs_success_inv (t b u : String) (env : SlidesEnv)
    (hs : (create_slide t b u env).1 = successMsg t) :
    ∃ layouts lid sid slides sl tid bid,
      env = ⟨.ok layouts, .ok sid, .ok slides, .ok ()⟩ ∧
      find_suitable_layout layouts = some lid ∧ lid.isEmpty = false ∧
      slides.find? (fun s => s.objectId = sid) = some sl ∧
      sl.pageElements ≠ [] ∧
      titleIdOf sl.pageElements = some tid ∧ bodyIdOf sl.pageElements = some bid ∧
      tid.isEmpty = false ∧ bid.isEmpty = false ∧
      (create_slide t b u env).2 =
        [[Request.createSlide ("new_slide_" ++ u) lid],
         [Request.insertText tid t, Request.insertText bid b]] := by
  obtain ⟨lr, cr, sr, ir⟩ := env
  cases lr with
  | exn e =>
    rw [cs_layouts_exn] at hs
    exact absurd hs.symm (successMsg_ne_unexpectedMsg t e)
  | ok layouts =>
    cases hf : falsyOptStr (find_suitable_layout layouts) with
    | true =>
      rw [cs_noLayout t b u layouts cr sr ir hf] at hs
      exact absurd hs.symm (successMsg_ne_noLayoutMsg t)
    | false =>
      obtain ⟨lid, h1, h2⟩ := find_not_falsy layouts hf
      cases cr with
      | exn e =>
        rw [cs_create_exn t b u e layouts lid sr ir h1 h2] at hs
        exact absurd hs.symm (successMsg_ne_unexpectedMsg t e)
      | ok sid =>
        cases sr with
        | exn e =>
          rw [cs_slides_exn t b u e layouts lid sid ir h1 h2] at hs
          exact absurd hs.symm (successMsg_ne_unexpectedMsg t e)
        | ok slides =>
          rcases h3 : slides.find? (fun s => s.objectId = sid) with _ | sl
          · rw [cs_noElements_none t b u layouts lid sid slides ir h1 h2 h3] at hs
            exact absurd hs.symm (successMsg_ne_noElementsMsg t sid)
          · rcases h4 : sl.pageElements with _ | ⟨el, els⟩
            · rw [cs_noElements_nil t b u layouts lid sid slides sl ir h1 h2 h3 h4] at hs
              exact absurd hs.symm (successMsg_ne_noElementsMsg t sid)
            · cases h5 : (falsyOptStr (titleIdOf (el :: els)) ||
                  falsyOptStr (bodyIdOf (el :: els))) with
              | true =>
                rw [cs_noPlaceholder t b u layouts lid sid slides sl el els ir
                  h1 h2 h3 h4 h5] at hs
                exact absurd hs.symm (successMsg_ne_noPlaceholderMsg t lid)
              | false =>
                obtain ⟨tid, bid, hti, hbi, hte, hbe⟩ := ids_not_falsy (el :: els) h5
                cases ir with
                | exn e =>
                  rw [cs_insert_exn t b u e layouts lid sid slides sl el els tid bid
                    h1 h2 h3 h4 hti hbi hte hbe] at hs
                  exact absurd hs.symm (successMsg_ne_unexpectedMsg t e)
                | ok uu =>
                  cases uu
                  refine ⟨layouts, lid, sid, slides, sl, tid, bid, rfl, h1, h2, h3,
                    by rw [h4]; exact List.cons_ne_nil el els,
                    by rw [h4]; exact hti, by rw [h4]; exact hbi, hte, hbe, ?_⟩
                  rw [cs_success t b u layouts lid sid slides sl el els tid bid
                    h1 h2 h3 h4 hti hbi hte hbe]

/-- Every execution of `create_slide` ends in one of the five strings the
function itself constructs; there is no other way out of the function. -/
lemma cs_cases (t b u : String) (env : SlidesEnv) :
    (∃ e, (create_slide t b u env).1 = unexpectedMsg e) ∨
    (create_slide t b u env).1 = noLayoutMsg ∨
    (∃ s, (create_slide t b u env).1 = noElementsMsg s) ∨
    (∃ s, (create_slide t b u env).1 = noPlaceholderMsg s) ∨
    (create_slide t b u env).1 = successMsg t := by
  obtain ⟨lr, cr, sr, ir⟩ := env
  cases lr with
  | exn e => exact Or.inl ⟨e, by rw [cs_layouts_exn]⟩
  | ok layouts =>
    cases hf : falsyOptStr (find_suitable_layout layouts) with
    | true => exact Or.inr (Or.inl (by rw [cs_noLayout t b u layouts cr sr ir hf]))
    | false =>
      obtain ⟨lid, h1, h2⟩ := find_not_falsy layouts hf
      cases cr with
      | exn e => exact Or.inl ⟨e, by rw [cs_create_exn t b u e layouts lid sr ir h1 h2]⟩
      | ok sid =>
        cases sr with
        | exn e =>
          exact Or.inl ⟨e, by rw [cs_slides_exn t b u e layouts lid sid ir h1 h2]⟩
        | ok slides =>
          rcases h3 : slides.find? (fun s => s.objectId = sid) with _ | sl
          · exact Or.inr (Or.inr (Or.inl ⟨sid,
              by rw [cs_noElements_none t b u layouts lid sid slides ir h1 h2 h3]⟩))
          · rcases h4 : sl.pageElements with _ | ⟨el, els⟩
            · exact Or.inr (Or.inr (Or.inl ⟨sid,
                by rw [cs_noElements_nil t b u layouts lid sid slides sl ir h1 h2 h3 h4]⟩))
            · cases h5 : (falsyOptStr (titleIdOf (el :: els)) ||
                  falsyOptStr (bodyIdOf (el :: els))) with
              | true =>
                exact Or.inr (Or.inr (Or.inr (Or.inl ⟨lid,
                  by rw [cs_noPlaceholder t b u layouts lid sid slides sl el els ir
                    h1 h2 h3 h4 h5]⟩)))
              | false =>
                obtain ⟨tid, bid, hti, hbi, hte, hbe⟩ := ids_not_falsy (el :: els) h5
                cases ir with
                | exn e =>
                  exact Or.inl ⟨e, by rw [cs_insert_exn t b u e layouts lid sid slides
                    sl el els tid bid h1 h2 h3 h4 hti hbi hte hbe]⟩
                | ok uu =>
                  cases uu
                  exact Or.inr (Or.inr (Or.inr (Or.inr
                    (by rw [cs_success t b u layouts lid sid slides sl el els tid bid
                      h1 h2 h3 h4 hti hbi hte hbe]))))

/-! ### Claim theorems -/

/-- C2: `create_slide` selects the first layout, in the order returned by
the service, that contains at least one TITLE-role and at least one
BODY-role placeholder (the layout loop equals a first-match search with
the spec criterion, with no scoring among later qualifying layouts); in
particular, on a layout list whose second layout is the first with both
roles, the issued create-slide request references the second layout. -/
theorem c2_first_match_layout_selection :
    (∀ layouts : List Layout,
      find_suitable_layout layouts =
        (layouts.find? layoutQualifies).map Layout.objectId) ∧
    find_suitable_layout [layTitleOnly, layBoth] = some "layBoth" ∧
    (create_slide "T" "B" "u" envSecondLayout).2.head? =
      some [Request.createSlide "new_slide_u" "layBoth"] := by
  refine ⟨find_suitable_layout_eq, rfl, rfl⟩

/-- C3: when no layout in the returned list contains both a title-role
and a body-role placeholder, `create_slide` returns the no-layout error
string and issues no batchUpdate request at all (in particular no
create-slide request). -/
theorem c3_no_qualifying_layout (t b u : String) (layouts : List Layout)
    (cr : CallResult String) (sr : CallResult (List Slide)) (ir : CallResult Unit)
    (hnone : ∀ l ∈ layouts, layoutQualifies l = false) :
    create_slide t b u ⟨.ok layouts, cr, sr, ir⟩ = (noLayoutMsg, []) := by
  have hfind : layouts.find? layoutQualifies = none := by
    rw [List.find?_eq_none]
    intro l hm
    simp [hnone l hm]
  apply cs_noLayout
  rw [find_suitable_layout_eq, hfind]
  rfl

theorem c3_witness :
    create_slide "T" "B" "u" envNoLayout = (noLayoutMsg, []) :=
  c3_no_qualifying_layout "T" "B" "u" [layTitleOnly] (.ok "sNew") (.ok [newSlide])
    (.ok ()) (by decide)

/-- C5: when the document-identifier pattern does not match the input
URL, `read_google_doc` returns the invalid-URL error string and performs
no network call (second component `false`). -/
theorem c5_invalid_doc_url (doc_url : String) (env : DocsEnv)
    (h : searchDocId doc_url.toList = none) :
    read_google_doc doc_url env = ("Error: Invalid Google Doc URL.", false) := by
  simp only [read_google_doc]
  rw [h]

theorem c5_witness :
    read_google_doc urlBad ⟨.ok docThree⟩ = ("Error: Invalid Google Doc URL.", false) :=
  c5_invalid_doc_url urlBad ⟨.ok docThree⟩ (by decide)

/-- C6: for every document whose body `read_google_doc` retrieves, the
returned string is exactly the in-order concatenation of the contents of
the text runs inside paragraph elements, with non-paragraph structural
elements and non-text-run paragraph elements contributing nothing and no
separator inserted. -/
theorem c6_doc_text_concatenation (doc_url : String) (doc : Document)
    (hm : searchDocId doc_url.toList ≠ none) :
    (read_google_doc doc_url ⟨.ok doc⟩).1 = specDocText doc.content := by
  rcases hmm : searchDocId doc_url.toList with _ | found
  · exact absurd hmm hm
  · rw [← docText_eq_specDocText]
    simp only [read_google_doc]
    rw [hmm]

theorem c6_witness :
    (read_google_doc urlGood ⟨.ok docThree⟩).1 = specDocText docThree.content ∧
    specDocText docThree.content = "Hello world" :=
  ⟨c6_doc_text_concatenation urlGood docThree (by decide), rfl⟩

/-- C7: every successful `create_presentation_from_template` call returns
a message containing the id of the newly copied presentation and, as a
substring, the viewer URL `https://docs.google.com/presentation/d/`
followed by that same id and a trailing slash. -/
theorem c7_message_contains_id_and_url (title : String) (f : DriveFile) (pid : String)
    (hid : f.id = some pid) :
    ∃ a b c d : String,
      create_presentation_from_template title ⟨.ok f⟩ = a ++ pid ++ b ∧
      create_presentation_from_template title ⟨.ok f⟩ =
        c ++ ("https://docs.google.com/presentation/d/" ++ pid ++ "/") ++ d := by
  have hguard : hasSub "YOUR_PRESENTATION_ID_HERE".toList TEMPLATE_ID.toList = false := rfl
  have heq : create_presentation_from_template title ⟨.ok f⟩ =
      "Presentation created. ID: " ++ pid ++
        ". URL: https://docs.google.com/presentation/d/" ++ pid ++ "/" := by
    simp only [create_presentation_from_template, hguard, Bool.false_eq_true, if_false,
      hid, pyShowOptStr]
  refine ⟨"Presentation created. ID: ",
    ". URL: https://docs.google.com/presentation/d/" ++ pid ++ "/",
    "Presentation created. ID: " ++ pid ++ ". URL: ", "", ?_, ?_⟩
  · rw [heq]
    apply String.ext
    simp only [str_data_append, List.append_assoc]
  · rw [heq, String.append_empty]
    apply String.ext
    simp only [str_data_append, List.append_assoc]
    rfl

theorem c7_witness :
    ∃ a b c d : String,
      create_presentation_from_template "Q3 Report" ⟨.ok ⟨some "newPid42"⟩⟩ =
        a ++ "newPid42" ++ b ∧
      create_presentation_from_template "Q3 Report" ⟨.ok ⟨some "newPid42"⟩⟩ =
        c ++ ("https://docs.google.com/presentation/d/" ++ "newPid42" ++ "/") ++ d :=
  c7_message_contains_id_and_url "Q3 Report" ⟨some "newPid42"⟩ "newPid42" rfl

/-- C8: every successful `create_slide` run returns exactly the string
`Slide <squote>{title}<squote> created successfully.` with the supplied
title interpolated between single quotes. -/
theorem c8_success_message_format (t b u : String) (layouts : List Layout)
    (lid sid : String) (slides : List Slide) (sl : Slide) (el : PageElement)
    (els : List PageElement) (tid bid : String)
    (h1 : find_suitable_layout layouts = some lid) (h2 : lid.isEmpty = false)
    (h3 : slides.find? (fun s => s.objectId = sid) = some sl)
    (h4 : sl.pageElements = el :: els)
    (h5 : titleIdOf (el :: els) = some tid) (h6 : bodyIdOf (el :: els) = some bid)
    (h7 : tid.isEmpty = false) (h8 : bid.isEmpty = false) :
    (create_slide t b u ⟨.ok layouts, .ok sid, .ok slides, .ok ()⟩).1 =
      "Slide " ++ squote ++ t ++ squote ++ " created successfully." := by
  rw [cs_success t b u layouts lid sid slides sl el els tid bid h1 h2 h3 h4 h5 h6 h7 h8]
  rfl

theorem c8_witness :
    (create_slide "Quarterly Numbers" "B" "u" envSuccess).1 =
      "Slide " ++ squote ++ "Quarterly Numbers" ++ squote ++ " created successfully." :=
  c8_success_message_format "Quarterly Numbers" "B" "u" [layBoth] "layBoth" "sNew"
    [newSlide] newSlide ⟨"phT", some (some "TITLE")⟩ [⟨"phB", some (some "BODY")⟩]
    "phT" "phB" rfl rfl rfl rfl rfl rfl rfl rfl

/-- C10: placeholder role classification is exact string equality with
TITLE and BODY at both code sites: an element whose placeholder type is
any other string leaves the layout-qualification flags unchanged and is
skipped by both placeholder-id lookups on the new slide. -/
theorem c10_exact_role_string_match (ty : String) (hT : ty ≠ "TITLE") (hB : ty ≠ "BODY")
    (oid : String) (acc : Bool × Bool) (rest : List PageElement) :
    scanStep acc ⟨oid, some (some ty)⟩ = acc ∧
    titleIdOf (⟨oid, some (some ty)⟩ :: rest) = titleIdOf rest ∧
    bodyIdOf (⟨oid, some (some ty)⟩ :: rest) = bodyIdOf rest := by
  refine ⟨?_, ?_, ?_⟩
  · simp [scanStep, hT, hB]
  · simp [titleIdOf, List.find?_cons, PageElement.phType, hT]
  · simp [bodyIdOf, List.find?_cons, PageElement.phType, hB]

theorem c10_witness :
    (scanStep (false, false) ⟨"x", some (some "CENTERED_TITLE")⟩ = (false, false) ∧
      titleIdOf [⟨"x", some (some "CENTERED_TITLE")⟩] = titleIdOf [] ∧
      bodyIdOf [⟨"x", some (some "CENTERED_TITLE")⟩] = bodyIdOf []) ∧
    (scanStep (false, false) ⟨"y", some (some "SUBTITLE")⟩ = (false, false) ∧
      titleIdOf [⟨"y", some (some "SUBTITLE")⟩] = titleIdOf [] ∧
      bodyIdOf [⟨"y", some (some "SUBTITLE")⟩] = bodyIdOf []) :=
  ⟨c10_exact_role_string_match "CENTERED_TITLE" (by decide) (by decide) "x" (false, false) [],
   c10_exact_role_string_match "SUBTITLE" (by decide) (by decide) "y" (false, false) []⟩

/-- C1: the success message is returned only when both a title-role and a
body-role placeholder were located on the newly created slide and the
insert batch writing both the title and body text was issued; and when
either placeholder id is missing (or falsy) the function returns the
placeholder error string with no insert batch issued — never a partial
success. -/
theorem c1_success_requires_both_placeholders :
    (∀ t b u env, (create_slide t b u env).1 = successMsg t →
      ∃ sid slides sl tid bid,
        env.createResp = .ok sid ∧ env.slidesResp = .ok slides ∧
        slides.find? (fun s => s.objectId = sid) = some sl ∧
        titleIdOf sl.pageElements = some tid ∧ bodyIdOf sl.pageElements = some bid ∧
        [Request.insertText tid t, Request.insertText bid b] ∈
          (create_slide t b u env).2) ∧
    (∀ t b u layouts lid sid slides sl el els ir,
      find_suitable_layout layouts = some lid → lid.isEmpty = false →
      slides.find? (fun s => s.objectId = sid) = some sl →
      sl.pageElements = el :: els →
      (falsyOptStr (titleIdOf (el :: els)) || falsyOptStr (bodyIdOf (el :: els))) = true →
      create_slide t b u ⟨.ok layouts, .ok sid, .ok slides, ir⟩ =
        (noPlaceholderMsg lid, [[Request.createSlide ("new_slide_" ++ u) lid]])) := by
  constructor
  · intro t b u env hs
    obtain ⟨layouts, lid, sid, slides, sl, tid, bid, henv, h1, h2, h3, hne, hti, hbi,
      hte, hbe, htr⟩ := cs_success_inv t b u env hs
    refine ⟨sid, slides, sl, tid, bid, by rw [henv], by rw [henv], h3, hti, hbi, ?_⟩
    rw [htr]
    exact List.mem_cons_of_mem _ (List.mem_singleton_self _)
  · intro t b u layouts lid sid slides sl el els ir h1 h2 h3 h4 h5
    exact cs_noPlaceholder t b u layouts lid sid slides sl el els ir h1 h2 h3 h4 h5

theorem c1_witness :
    (∃ sid slides sl tid bid,
      envSuccess.createResp = .ok sid ∧ envSuccess.slidesResp = .ok slides ∧
      slides.find? (fun s => s.objectId = sid) = some sl ∧
      titleIdOf sl.pageElements = some tid ∧ bodyIdOf sl.pageElements = some bid ∧
      [Request.insertText tid "T", Request.insertText bid "B"] ∈
        (create_slide "T" "B" "u" envSuccess).2) ∧
    create_slide "T" "B" "u" envMissingBody =
      (noPlaceholderMsg "layBoth", [[Request.createSlide "new_slide_u" "layBoth"]]) :=
  ⟨c1_success_requires_both_placeholders.1 "T" "B" "u" envSuccess (by decide),
   c1_success_requires_both_placeholders.2 "T" "B" "u" [layBoth] "layBoth" "sNew"
     [slideTitleOnly] slideTitleOnly ⟨"phT", some (some "TITLE")⟩ [] (.ok ())
     rfl rfl rfl rfl rfl⟩

/-- C4: no exception propagates past a tool-function boundary.  In the
embedding every raised external exception is a `CallResult.exn` input:
the first tool maps it to its `Error:` string, the document reader either
rejects the URL, maps the exception to its `Error:` string, or returns
the document text, the URL fetcher maps a raised request exception to its
fetch-error string, and every `create_slide` execution ends in one of the
five strings the function itself constructs. -/
theorem c4_exceptions_become_strings :
    (∀ title e, create_presentation_from_template title ⟨.exn e⟩ = "Error: " ++ e) ∧
    (∀ url env, (read_google_doc url env).1 = "Error: Invalid Google Doc URL." ∨
      (∃ e, env.getResp = .exn e ∧ (read_google_doc url env).1 = "Error: " ++ e) ∨
      (∃ doc, env.getResp = .ok doc ∧
        (read_google_doc url env).1 = docText doc.content)) ∧
    (∀ url e, read_content_from_public_url url ⟨.exn e⟩ =
      "Error fetching content from URL: " ++ e) ∧
    (∀ t b u env,
      (∃ e, (create_slide t b u env).1 = unexpectedMsg e) ∨
      (create_slide t b u env).1 = noLayoutMsg ∨
      (∃ s, (create_slide t b u env).1 = noElementsMsg s) ∨
      (∃ s, (create_slide t b u env).1 = noPlaceholderMsg s) ∨
      (create_slide t b u env).1 = successMsg t) := by
  refine ⟨?_, ?_, ?_, cs_cases⟩
  · intro title e
    rfl
  · intro url env
    obtain ⟨gr⟩ := env
    rcases hm : searchDocId url.toList with _ | found
    · exact Or.inl (by simp only [read_google_doc]; rw [hm])
    · cases gr with
      | exn e =>
        exact Or.inr (Or.inl ⟨e, rfl, by simp only [read_google_doc]; rw [hm]⟩)
      | ok doc =>
        exact Or.inr (Or.inr ⟨doc, rfl, by simp only [read_google_doc]; rw [hm]⟩)
  · intro url e
    rfl

/-- C9: when the create-slide batchUpdate has succeeded but the run does
not end in the success message, the function returns one of its error
strings, the issued trace still starts with the create-slide request, and
nothing beyond (at most) the attempted insert batch is ever issued — no
delete or rollback request exists, so the created slide persists. -/
theorem c9_no_rollback_after_midway_failure (t b u : String) (layouts : List Layout)
    (lid sid : String) (sr : CallResult (List Slide)) (ir : CallResult Unit)
    (h1 : find_suitable_layout layouts = some lid) (h2 : lid.isEmpty = false)
    (hf : (create_slide t b u ⟨.ok layouts, .ok sid, sr, ir⟩).1 ≠ successMsg t) :
    (∃ s, (create_slide t b u ⟨.ok layouts, .ok sid, sr, ir⟩).1 = unexpectedMsg s ∨
      (create_slide t b u ⟨.ok layouts, .ok sid, sr, ir⟩).1 = noElementsMsg s ∨
      (create_slide t b u ⟨.ok layouts, .ok sid, sr, ir⟩).1 = noPlaceholderMsg s) ∧
    (create_slide t b u ⟨.ok layouts, .ok sid, sr, ir⟩).2.head? =
      some [Request.createSlide ("new_slide_" ++ u) lid] ∧
    ((create_slide t b u ⟨.ok layouts, .ok sid, sr, ir⟩).2 =
        [[Request.createSlide ("new_slide_" ++ u) lid]] ∨
      ∃ tid bid, (create_slide t b u ⟨.ok layouts, .ok sid, sr, ir⟩).2 =
        [[Request.createSlide ("new_slide_" ++ u) lid],
         [Request.insertText tid t, Request.insertText bid b]]) := by
  cases sr with
  | exn e =>
    rw [cs_slides_exn t b u e layouts lid sid ir h1 h2]
    exact ⟨⟨e, Or.inl rfl⟩, rfl, Or.inl rfl⟩
  | ok slides =>
    rcases h3 : slides.find? (fun s => s.objectId = sid) with _ | sl
    · rw [cs_noElements_none t b u layouts lid sid slides ir h1 h2 h3]
      exact ⟨⟨sid, Or.inr (Or.inl rfl)⟩, rfl, Or.inl rfl⟩
    · rcases h4 : sl.pageElements with _ | ⟨el, els⟩
      · rw [cs_noElements_nil t b u layouts lid sid slides sl ir h1 h2 h3 h4]
        exact ⟨⟨sid, Or.inr (Or.inl rfl)⟩, rfl, Or.inl rfl⟩
      · cases h5 : (falsyOptStr (titleIdOf (el :: els)) ||
            falsyOptStr (bodyIdOf (el :: els))) with
        | true =>
          rw [cs_noPlaceholder t b u layouts lid sid slides sl el els ir h1 h2 h3 h4 h5]
          exact ⟨⟨lid, Or.inr (Or.inr rfl)⟩, rfl, Or.inl rfl⟩
        | false =>
          obtain ⟨tid, bid, hti, hbi, hte, hbe⟩ := ids_not_falsy (el :: els) h5
          cases ir with
          | exn e =>
            rw [cs_insert_exn t b u e layouts lid sid slides sl el els tid bid
              h1 h2 h3 h4 hti hbi hte hbe]
            exact ⟨⟨e, Or.inl rfl⟩, rfl, Or.inr ⟨tid, bid, rfl⟩⟩
          | ok uu =>
            cases uu
            exact absurd (by rw [cs_success t b u layouts lid sid slides sl el els
              tid bid h1 h2 h3 h4 hti hbi hte hbe]) hf

theorem c9_witness :
    (∃ s, (create_slide "T" "B" "u" envSlidesEmpty).1 = unexpectedMsg s ∨
      (create_slide "T" "B" "u" envSlidesEmpty).1 = noElementsMsg s ∨
      (create_slide "T" "B" "u" envSlidesEmpty).1 = noPlaceholderMsg s) ∧
    (create_slide "T" "B" "u" envSlidesEmpty).2.head? =
      some [Request.createSlide "new_slide_u" "layBoth"] ∧
    ((create_slide "T" "B" "u" envSlidesEmpty).2 =
        [[Request.createSlide "new_slide_u" "layBoth"]] ∨
      ∃ tid bid, (create_slide "T" "B" "u" envSlidesEmpty).2 =
        [[Request.createSlide "new_slide_u" "layBoth"],
         [Request.insertText tid "T", Request.insertText bid "B"]]) :=
  c9_no_rollback_after_midway_failure "T" "B" "u" [layBoth] "layBoth" "sNew"
    (.ok []) (.ok ()) rfl rfl (by decide)
